import Mathlib

/-!
Verification of the adaptive date-range search-splitting controller of the
Hamilton County homes scraper.

Calendar dates are modelled as day ordinals (`Nat`, days since an arbitrary
epoch).  A date range `(start, end)` from the Python code — a tuple of
`MM/DD/YYYY` strings — becomes a pair `Nat × Nat`; the queue `dates` — a
Python list of such tuples — becomes a `List (Nat × Nat)`.

The Selenium layer (driver, waits, page elements) is made explicit: each
external read is a parameter of the embedded function (the raw result-count
text, the per-page table contents, the navigation outcomes), and a Python
exception escaping a function is an `Except.error` / dedicated constructor.
-/

namespace HamiltonScraper

/-- The midpoint computed by `check_reset_needed`
(`src/utils/form_helpers.py` line 257):
`midpoint = start_dt + (end_dt - start_dt) / 2` at timestamp resolution,
then truncated to a whole day by the `%m/%d/%Y` formatting of line 258.
With `start_dt` and `end_dt` at midnight of days `s` and `e` (`s ≤ e`),
the timestamp `start + (e - s)/2 days` truncates to day `s + (e - s) / 2`
with floor (`Nat`) division. -/
def midpoint_day (s e : Nat) : Nat := s + (e - s) / 2

/-- `split_replace_add_time_slice` (`src/utils/form_helpers.py` lines
172-218) on day ordinals.  The Python function copies `dates`
(`updated_dates = dates.copy()`), walks it left to right, and at the FIRST
element whose end equals `old_date` replaces that end with `new_date`,
inserts `additional_slice` right after it, sets `modified = True` and
stops; when no element matches it returns the copied list unchanged with
`modified = False`.  (The `safe_to_datetime` / `str_format_date` round
trips of the Python code are identities on day ordinals.) -/
def split_replace_add_time_slice (dates : List (Nat × Nat)) (old_date new_date : Nat)
    (additional_slice : Nat × Nat) : List (Nat × Nat) × Bool :=
  match dates with
  | [] => ([], false)
  | (s, e) :: rest =>
    if e = old_date then
      ((s, new_date) :: additional_slice :: rest, true)
    else
      let r := split_replace_add_time_slice rest old_date new_date additional_slice
      ((s, e) :: r.1, r.2)

/-- Python's `text.split(sep)` for a single-character separator: split at
every occurrence of `c`, KEEPING empty tokens (`"a  b".split(" ")` is
`["a", "", "b"]`, `"".split(" ")` is `[""]`). -/
def splitOneChar (c : Char) (cs : List Char) : List (List Char) :=
  match cs with
  | [] => [[]]
  | a :: rest =>
    if a = c then [] :: splitOneChar c rest
    else
      match splitOneChar c rest with
      | [] => [[a]]
      | t :: ts => (a :: t) :: ts

/-- Digits-only parse of a token to a natural number; `none` when the
token is empty or has a non-digit character. -/
def parseDigits : List Char → Option Nat
  | [] => none
  | [c] => if c.isDigit then some (c.toNat - 48) else none
  | c :: rest =>
    if c.isDigit then
      (parseDigits rest).map (fun n => (c.toNat - 48) * 10 ^ rest.length + n)
    else none

/-- `pd.to_numeric` on a comma-stripped count token.  The count the site
reports is a nonnegative integer, so the conversion is modelled as an
integer parse (optional sign, then digits); anything else raises
(`none`). -/
def to_numeric (cs : List Char) : Option Int :=
  match cs with
  | '-' :: rest => (parseDigits rest).map (fun n => -(n : Int))
  | _ => (parseDigits cs).map (fun n => (n : Int))

/-- The entry-count parse of `check_reset_needed`
(`src/utils/form_helpers.py` line 249):
`pd.to_numeric(raw_text.split(" ")[5].replace(",", ""))`.
Python's `split(" ")` splits on each single space character and keeps
empty tokens.  `replace(",", "")` removes every comma.  A missing index
(fewer than 6 tokens) or a non-numeric token raises in Python
(IndexError / ValueError from `pd.to_numeric`); both become `none`. -/
def parse_total_entries (raw_text : String) : Option Int :=
  match (splitOneChar ' ' raw_text.toList).get? 5 with
  | none => none
  | some tok => to_numeric (tok.filter (fun c => c ≠ ','))

/-- The parse as the spec's words describe it: "index 5 of
whitespace-split tokens, commas stripped".  Whitespace splitting
(Python's argumentless `str.split()`) splits on runs of any whitespace
and drops empty tokens. -/
def parse_total_entries_whitespace (raw_text : String) : Option Int :=
  match (((raw_text.toList.splitOnP Char.isWhitespace).filter
      (fun t => t ≠ []))).get? 5 with
  | none => none
  | some tok => to_numeric (tok.filter (fun c => c ≠ ','))

/-- Result of `check_reset_needed` when no exception escapes: the tuple
`(reset_needed, modified, updated_dates, total_entries)` it returns, plus
whether `safe_quit(driver)` was called on the way (line 274). -/
structure ResetResult where
  reset_needed : Bool
  modified : Bool
  dates : List (Nat × Nat)
  total_entries : Int
  driver_quit : Bool
  deriving Repr, DecidableEq

instance {α β : Type} [DecidableEq α] [DecidableEq β] : DecidableEq (Except α β) :=
  fun a b =>
    match a, b with
    | .error x, .error y =>
      if h : x = y then .isTrue (by rw [h]) else .isFalse (by simp [h])
    | .error _, .ok _ => .isFalse (fun h => Except.noConfusion h)
    | .ok _, .error _ => .isFalse (fun h => Except.noConfusion h)
    | .ok x, .ok y =>
      if h : x = y then .isTrue (by rw [h]) else .isFalse (by simp [h])

/-- `check_reset_needed` (`src/utils/form_helpers.py` lines 227-277) for a
current range `(s, e)` and queue `dates`.  `raw_text` is what
`get_text(driver, wait, XPATHS["results"]["search_results_number"])`
produced: `some text`, or `none` when `get_text` raised.  Any failure in
the fetch-and-parse `try` block is re-raised as
`ValueError("Failed to extract number of entries: ...")` — the
`Except.error` case.
* `total_entries ≥ 1000`: midpoint split; `old_date` is the formatted end
  of the current range, the new slice is `(midpoint + 1 day, e)`; returns
  `(True, modified, updated_dates, total_entries)`.
* `total_entries < 1`: logs, calls `safe_quit(driver)`, and returns
  `(False, False, dates, total_entries)` — the queue is NOT changed.
* otherwise: returns `(False, False, dates, total_entries)`. -/
def check_reset_needed (raw_text : Option String) (s e : Nat)
    (dates : List (Nat × Nat)) : Except Unit ResetResult :=
  match raw_text.bind parse_total_entries with
  | none => .error ()
  | some total_entries =>
    if 1000 ≤ total_entries then
      let mid := midpoint_day s e
      let new_slice : Nat × Nat := (mid + 1, e)
      let r := split_replace_add_time_slice dates e mid new_slice
      .ok ⟨true, r.2, r.1, total_entries, false⟩
    else if total_entries < 1 then
      .ok ⟨false, false, dates, total_entries, true⟩
    else
      .ok ⟨false, false, dates, total_entries, false⟩

/-- One pass of the overflow path for the range `(s, e)`: the queue that
`check_reset_needed` hands back when `total_entries ≥ 1000`. -/
def overflow_step (s e : Nat) (dates : List (Nat × Nat)) : List (Nat × Nat) :=
  (split_replace_add_time_slice dates e (midpoint_day s e)
    (midpoint_day s e + 1, e)).1

/-- A day `x` lies in the span of range `r`. -/
def inSpan (r : Nat × Nat) (x : Nat) : Prop := r.1 ≤ x ∧ x ≤ r.2

instance (r : Nat × Nat) (x : Nat) : Decidable (inSpan r x) := by
  unfold inSpan; infer_instance

/-- Some range of the queue covers day `x`. -/
def covered (dates : List (Nat × Nat)) (x : Nat) : Bool :=
  dates.any (fun r => decide (r.1 ≤ x) && decide (x ≤ r.2))

/-- The queue shape invariant, with `lb` a lower bound for the next start:
every range is valid (`start ≤ end`), ranges are sorted and pairwise
disjoint (each range starts strictly after the previous one ends). -/
def chainLB (lb : Nat) : List (Nat × Nat) → Bool
  | [] => true
  | (s, e) :: rest => decide (lb ≤ s) && decide (s ≤ e) && chainLB (e + 1) rest

/-! ## Element accessor: `get_text` (`src/utils/form_helpers.py` lines 66-112) -/

/-- Outcome of one attempt of the `get_text` loop body: the element was
found and its stripped text returned, or one of the three retried
Selenium exceptions was raised, or some other exception was raised. -/
inductive Attempt where
  | ok (text : String)
  | intercepted
  | timeout
  | stale
  | other
  deriving Repr, DecidableEq

/-- The three exception classes `get_text` retries on:
`ElementClickInterceptedException`, `TimeoutException`,
`StaleElementReferenceException`. -/
def retryable : Attempt → Bool
  | .intercepted => true
  | .timeout => true
  | .stale => true
  | _ => false

/-- What `get_text` does overall: returns the (stripped) text, raises
`TimeoutException` after exhausting all retries (line 112), or re-raises
an unexpected exception immediately (line 109). -/
inductive GetTextResult where
  | ok (text : String)
  | timeoutRaised
  | otherRaised
  deriving Repr, DecidableEq

/-- The `for attempt in range(1, retries + 1)` loop of `get_text`,
starting at attempt number `i` with `fuel` attempts left.  `attempts i`
is what the page interaction on attempt `i` does.  The second component
counts the seconds slept (`time.sleep(delay)` runs after every failed
retryable attempt).  When the loop ends without returning, the function
raises `TimeoutException`. -/
def get_text_loop (attempts : Nat → Attempt) (delay : Nat) :
    Nat → Nat → GetTextResult × Nat
  | _, 0 => (.timeoutRaised, 0)
  | i, fuel + 1 =>
    match attempts i with
    | .ok t => (.ok t.trim, 0)
    | .other => (.otherRaised, 0)
    | _ =>
      let r := get_text_loop attempts delay (i + 1) fuel
      (r.1, r.2 + delay)

/-- `get_text(driver, wait, xpath, retries, delay)`: attempts run from 1
to `retries`; the element's raw text is stripped before being returned
(empty text only logs a warning and is still returned). -/
def get_text (attempts : Nat → Attempt) (retries : Nat) (delay : Nat) :
    GetTextResult × Nat :=
  get_text_loop attempts delay 1 retries

/-! ## Scrape orchestrator: `scrape_data` (`src/scraper.py` lines 75-117)

The page interactions are oracles: `pages i` is the table that
`scrape_results_page` returns on listing iteration `i` (it catches every
exception and returns an empty frame, so it is total); `nav_next_page i`
and `nav_next_property i` are what `next_navigation` reports (spec §4.5:
the Pagination Navigator returns whether advancement occurred);
`details i` is the `extract_property_details` outcome on detail iteration
`i` (`none` when it returned `None` — it catches every exception).
Tables are abstract row lists (`List Nat`). -/

structure ScrapeEnv where
  /-- Parse of `get_text` on the number-of-pages element:
  `pd.to_numeric(get_text(...))`, `none` when that raises. -/
  page_number : Option Nat
  pages : Nat → List Nat
  nav_next_page : Nat → Bool
  details : Nat → Option (List Nat)
  nav_next_property : Nat → Bool

/-- What `scrape_data` produced when no exception escaped. -/
structure ScrapeResult where
  all_data : List (List Nat)
  appraisal_data : List (List Nat)
  /-- How many times `extract_property_details` was called. -/
  detail_attempts : Nat
  /-- Whether the `safe_click` / `find_click_row` navigation to the first
  property-details page was performed (only when `all_data` is
  non-empty). -/
  navigated_to_first : Bool
  deriving Repr, DecidableEq

/-- Phase 1, `for i in range(PAGE_NUMBER)`: append the page's table when
it is non-empty, else log and break; then break if `next_navigation`
reports no further page. -/
def scrape_listing_pages (env : ScrapeEnv) : Nat → Nat → List (List Nat)
  | 0, _ => []
  | fuel + 1, i =>
    let t := env.pages i
    if t = [] then []
    else if env.nav_next_page i then t :: scrape_listing_pages env fuel (i + 1)
    else [t]

/-- Phase 2, `for i in range(NUM_ENTRIES)`: every iteration calls
`extract_property_details` (appending its table unless it returned
`None`), sleeps, and breaks when `next_navigation` reports no further
record.  Returns the collected tables and the number of extraction
attempts made. -/
def scrape_details (env : ScrapeEnv) : Nat → Nat → List (List Nat) × Nat
  | 0, _ => ([], 0)
  | fuel + 1, i =>
    let rest :=
      if env.nav_next_property i then scrape_details env fuel (i + 1)
      else ([], 0)
    match env.details i with
    | some t => (t :: rest.1, rest.2 + 1)
    | none => (rest.1, rest.2 + 1)

/-- `scrape_data(driver, wait, NUM_ENTRIES)`.  The first statement reads
and parses the page count (`PAGE_NUMBER`); if that raises, the exception
escapes (`Except.error`).  The phase-2 loop runs whether or not phase 1
captured any rows — an empty `all_data` only skips the `safe_click` /
`find_click_row` navigation (the `else` branch at line 100 just logs). -/
def scrape_data (env : ScrapeEnv) (NUM_ENTRIES : Nat) : Except Unit ScrapeResult :=
  match env.page_number with
  | none => .error ()
  | some pn =>
    let all_data := scrape_listing_pages env pn 0
    let d := scrape_details env NUM_ENTRIES 0
    .ok { all_data := all_data, appraisal_data := d.1,
          detail_attempts := d.2,
          navigated_to_first := decide (all_data ≠ []) }

/-! ## `main` (`src/main.py` lines 23-52) -/

/-- How one call of `main` for the popped range ends, as seen by the
`while dates` loop of `src/main.py`.  `raised_*` outcomes are exceptions
that escape `main` (its `try` has only a `finally: safe_quit(driver)`, no
`except`), and the `__main__` loop has no handler either, so they abort
the whole run. -/
inductive MainResult where
  /-- The `ValueError` of `check_reset_needed` propagated. -/
  | raised_before_scrape
  /-- `reset_needed` was true: `main` returns two empty DataFrames, the
  updated queue and `modified` (line 35). -/
  | early (dates : List (Nat × Nat)) (modified : Bool)
  /-- An exception propagated from `scrape_data` or from the
  `assert all_data` / `assert appraisal_data` statements (lines 38-39);
  the queue is whatever `check_reset_needed` returned. -/
  | raised_in_scrape (dates : List (Nat × Nat))
  /-- Normal return of the concatenated frames (line 49). -/
  | frames (dates : List (Nat × Nat)) (modified : Bool)
  deriving Repr, DecidableEq

/-- `main(allowed, start, end, dates, ids, values)` after
`initialize_search`: runs `check_reset_needed`, returns early on
`reset_needed`, otherwise calls `scrape_data` with `NUM_ENTRIES` and
asserts both result lists are non-empty before building the frames.
Note that nothing between `check_reset_needed` and `scrape_data` checks
`total_entries == 0` or that `safe_quit` was already called: the
count-zero branch also reaches `scrape_data`.  `count_raw` is the raw
result-count text (`none` when `get_text` raised), `env` the scrape
oracles for the session state at the time `scrape_data` runs. -/
def main (count_raw : Option String) (env : ScrapeEnv) (s e : Nat)
    (dates : List (Nat × Nat)) : MainResult :=
  match check_reset_needed count_raw s e dates with
  | .error _ => .raised_before_scrape
  | .ok r =>
    if r.reset_needed then
      .early r.dates r.modified
    else
      match scrape_data env r.total_entries.toNat with
      | .error _ => .raised_in_scrape r.dates
      | .ok sres =>
        if sres.all_data = [] then .raised_in_scrape r.dates
        else if sres.appraisal_data = [] then .raised_in_scrape r.dates
        else .frames r.dates r.modified

/-- Session state after `check_reset_needed`'s count-zero branch ran
`safe_quit(driver)`: the driver is gone, so the very first page
interaction of `scrape_data` — the `get_text` read of the page count —
raises (`page_number = none`); no table or navigation succeeds either. -/
def deadSessionEnv : ScrapeEnv :=
  { page_number := none
    pages := fun _ => []
    nav_next_page := fun _ => false
    details := fun _ => none
    nav_next_property := fun _ => false }

/-- A live session on which every listing page comes back empty (the
site rendered no result rows): the page count reads fine, but
`scrape_results_page` yields an empty frame on every iteration, every
`extract_property_details` call returns `None`, and the navigators keep
reporting a next record. -/
def noRowsEnv : ScrapeEnv :=
  { page_number := some 3
    pages := fun _ => []
    nav_next_page := fun _ => true
    details := fun _ => none
    nav_next_property := fun _ => true }

/-! ## General lemmas about the queue operations -/

/-- When the first range of the queue ending on `old_date` is `(s, old_date)`,
`split_replace_add_time_slice` replaces exactly that range's end and
inserts the slice right after it. -/
theorem split_replace_match (pre post : List (Nat × Nat))
    (s old_date new_date : Nat) (slice : Nat × Nat)
    (hpre : ∀ r ∈ pre, r.2 ≠ old_date) :
    split_replace_add_time_slice (pre ++ (s, old_date) :: post) old_date new_date slice
      = (pre ++ (s, new_date) :: slice :: post, true) := by
  induction pre with
  | nil => simp [split_replace_add_time_slice]
  | cons a t ih =>
    obtain ⟨a1, a2⟩ := a
    have ha : a2 ≠ old_date := hpre (a1, a2) (List.mem_cons_self _ _)
    have ht : ∀ r ∈ t, r.2 ≠ old_date := fun r hr => hpre r (List.mem_cons_of_mem _ hr)
    simp [split_replace_add_time_slice, ha, ih ht]

/-- Every range of a queue satisfying `chainLB lb` is valid and starts at
or after `lb`. -/
theorem chainLB_mem (lb : Nat) (dates : List (Nat × Nat)) (a b : Nat)
    (hinv : chainLB lb dates = true) (hmem : (a, b) ∈ dates) : lb ≤ a ∧ a ≤ b := by
  induction dates generalizing lb with
  | nil => cases hmem
  | cons hd t ih =>
    obtain ⟨s, e⟩ := hd
    simp only [chainLB, Bool.and_eq_true, decide_eq_true_eq] at hinv
    rcases List.mem_cons.mp hmem with heq | hmem'
    · injection heq with h1 h2
      subst h1; subst h2
      exact ⟨hinv.1.1, hinv.1.2⟩
    · have := ih (e + 1) hinv.2 hmem'
      exact ⟨Nat.le_trans (Nat.le_trans (Nat.le_trans hinv.1.1 hinv.1.2)
        (Nat.le_succ e)) this.1, this.2⟩

/-- The midpoint lies in the range: `s ≤ midpoint` always, and
`midpoint < e` whenever `s < e`. -/
theorem midpoint_day_bounds (s e : Nat) (h : s < e) :
    s ≤ midpoint_day s e ∧ midpoint_day s e < e := by
  unfold midpoint_day
  omega

/-- `overflow_step` on a cons cell: replace in the head when its end
matches, otherwise recurse into the tail. -/
theorem overflow_step_cons (s e a b : Nat) (t : List (Nat × Nat)) :
    overflow_step s e ((a, b) :: t)
      = if b = e then
          (a, midpoint_day s e) :: (midpoint_day s e + 1, e) :: t
        else (a, b) :: overflow_step s e t := by
  by_cases h : b = e <;> simp [overflow_step, split_replace_add_time_slice, h]

/-! ## Claim theorems -/

/-- C1: for every date range `(s, e)` with `s ≤ e` sitting in the queue
(no earlier queue entry sharing its end date) whose reported result count
is at least 1000, `check_reset_needed` replaces it by exactly the two
ranges `(s, midpoint)` and `(midpoint + 1, e)` with
`midpoint = s + (e - s) / 2` truncated toward `s` to a whole day; the two
spans are contiguous, non-overlapping, and their union is exactly the
span of `(s, e)`. -/
theorem C1_overflow_split_partitions (raw : String) (c : Int) (s e : Nat)
    (pre post : List (Nat × Nat))
    (hparse : parse_total_entries raw = some c) (hc : 1000 ≤ c) (hse : s ≤ e)
    (hpre : ∀ r ∈ pre, r.2 ≠ e) :
    check_reset_needed (some raw) s e (pre ++ (s, e) :: post)
        = .ok ⟨true, true,
            pre ++ (s, midpoint_day s e) :: (midpoint_day s e + 1, e) :: post,
            c, false⟩
    ∧ (midpoint_day s e + 1, e).1 = (s, midpoint_day s e).2 + 1
    ∧ (∀ x, ¬(inSpan (s, midpoint_day s e) x ∧ inSpan (midpoint_day s e + 1, e) x))
    ∧ (∀ x, (inSpan (s, midpoint_day s e) x ∨ inSpan (midpoint_day s e + 1, e) x)
          ↔ inSpan (s, e) x) := by
  refine ⟨?_, rfl, ?_, ?_⟩
  · simp only [check_reset_needed, Option.some_bind, hparse, if_pos hc,
      split_replace_match pre post s e (midpoint_day s e) (midpoint_day s e + 1, e) hpre]
  · intro x
    simp only [inSpan, midpoint_day]
    omega
  · intro x
    simp only [inSpan, midpoint_day]
    omega

/-- Witness for C1: the year 2020 (days 0..364 from 01/01/2020) with
1,500 reported entries splits into 01/01-07/01 (days 0..182) and
07/02-12/31 (days 183..364). -/
theorem C1_overflow_split_partitions_witness :
    check_reset_needed (some "Showing 1 to 25 of 1,500 entries") 0 364 [(0, 364)]
      = .ok ⟨true, true, [(0, 182), (183, 364)], 1500, false⟩ := by
  have h := (C1_overflow_split_partitions "Showing 1 to 25 of 1,500 entries"
    1500 0 364 [] [] (by decide) (by decide) (by decide) (by simp)).1
  exact h

/-- C9: for a result count between 1 and 999 the range is accepted and
`check_reset_needed` is a no-op on the queue: it returns
`(False, False, dates, count)` with the queue exactly as passed in, no
range mutated, and without quitting the driver. -/
theorem C9_accepted_is_noop (raw : String) (c : Int) (s e : Nat)
    (dates : List (Nat × Nat))
    (hparse : parse_total_entries raw = some c) (h1 : 1 ≤ c) (h999 : c ≤ 999) :
    check_reset_needed (some raw) s e dates = .ok ⟨false, false, dates, c, false⟩ := by
  have hlt : ¬(1000 ≤ c) := by omega
  have hge : ¬(c < 1) := by omega
  simp [check_reset_needed, hparse, hlt, hge]

/-- Witness for C9: 400 entries on an already-accepted half-year range
leaves the two-element queue untouched. -/
theorem C9_accepted_is_noop_witness :
    check_reset_needed (some "Showing 1 to 25 of 400 entries") 0 182
        [(0, 182), (183, 364)]
      = .ok ⟨false, false, [(0, 182), (183, 364)], 400, false⟩ :=
  C9_accepted_is_noop "Showing 1 to 25 of 400 entries" 400 0 182
    [(0, 182), (183, 364)] (by decide) (by decide) (by decide)

/-- C10: `split_replace_add_time_slice` works on a copy of the queue and,
when no existing range's end equals `old_date`, returns a list equal to
its input together with `modified = False` — the caller's queue is
unchanged on a failed match. -/
theorem C10_split_no_match_is_identity (dates : List (Nat × Nat))
    (old_date new_date : Nat) (slice : Nat × Nat)
    (h : ∀ r ∈ dates, r.2 ≠ old_date) :
    split_replace_add_time_slice dates old_date new_date slice = (dates, false) := by
  induction dates with
  | nil => rfl
  | cons a t ih =>
    obtain ⟨s, e⟩ := a
    have he : e ≠ old_date := h (s, e) (List.mem_cons_self _ _)
    have ht : ∀ r ∈ t, r.2 ≠ old_date := fun r hr => h r (List.mem_cons_of_mem _ hr)
    simp [split_replace_add_time_slice, he, ih ht]

/-- Witness for C10: an `old_date` ending no queue range leaves the
queue as it was. -/
theorem C10_split_no_match_is_identity_witness :
    split_replace_add_time_slice [(0, 182), (183, 364)] 99 50 (100, 182)
      = ([(0, 182), (183, 364)], false) :=
  C10_split_no_match_is_identity [(0, 182), (183, 364)] 99 50 (100, 182) (by decide)

/-- One retryable failure inside the `get_text` loop: the attempt is
consumed, `time.sleep(delay)` runs, and the loop moves to the next
attempt. -/
theorem get_text_loop_retry (a : Nat → Attempt) (d i fuel : Nat)
    (h : retryable (a i) = true) :
    get_text_loop a d i (fuel + 1)
      = ((get_text_loop a d (i + 1) fuel).1, (get_text_loop a d (i + 1) fuel).2 + d) := by
  cases ha : a i <;> rw [ha] at h <;> simp [retryable] at h <;>
    simp [get_text_loop, ha]

/-- C7: with the default `retries=3, delay=1`, `get_text` retries on
element-not-yet-rendered (`TimeoutException`), element-obscured
(`ElementClickInterceptedException`) and stale-element errors; when all
3 attempts fail with such errors it raises a `TimeoutException` to its
caller (sleeping 1 second after each failed attempt) instead of
returning a text, and a success on the last attempt is still returned. -/
theorem C7_get_text_retries_then_timeout (a : Nat → Attempt)
    (h1 : retryable (a 1) = true) (h2 : retryable (a 2) = true) :
    (retryable (a 3) = true → get_text a 3 1 = (.timeoutRaised, 3))
    ∧ (∀ t, a 3 = .ok t → get_text a 3 1 = (.ok t.trim, 2)) := by
  have e1 : get_text_loop a 1 1 3
      = ((get_text_loop a 1 2 2).1, (get_text_loop a 1 2 2).2 + 1) :=
    get_text_loop_retry a 1 1 2 h1
  have e2 : get_text_loop a 1 2 2
      = ((get_text_loop a 1 3 1).1, (get_text_loop a 1 3 1).2 + 1) :=
    get_text_loop_retry a 1 2 1 h2
  constructor
  · intro h3
    have e3 : get_text_loop a 1 3 1
        = ((get_text_loop a 1 4 0).1, (get_text_loop a 1 4 0).2 + 1) :=
      get_text_loop_retry a 1 3 0 h3
    show get_text_loop a 1 1 3 = (.timeoutRaised, 3)
    rw [e1, e2, e3]
    rfl
  · intro t h3
    have e3 : get_text_loop a 1 3 1 = (.ok t.trim, 0) := by
      simp [get_text_loop, h3]
    show get_text_loop a 1 1 3 = (.ok t.trim, 2)
    rw [e1, e2, e3]

/-- Witness for C7: an element that times out on every attempt makes
`get_text` raise after 3 attempts and 3 seconds of sleeping. -/
theorem C7_get_text_retries_then_timeout_witness :
    get_text (fun _ => Attempt.timeout) 3 1 = (.timeoutRaised, 3) :=
  (C7_get_text_retries_then_timeout (fun _ => Attempt.timeout) rfl rfl).1 rfl

/-- C2 (code bug): on a single-day range with an overflowing count the
code signals no irreducible-range error at all — `check_reset_needed`
performs a normal split, leaving the very same single-day range in the
queue and inserting the degenerate inverted slice `(day + 1, day)` after
it.  Iterating the range-processing step on it therefore never empties
the queue (its head is forever the same single-day range and it grows by
one each pass): the `while dates` loop of `src/main.py` does not
terminate. -/
theorem C2_single_day_overflow_never_terminates :
    (check_reset_needed (some "Showing 1 to 25 of 1,500 entries") 0 0 [(0, 0)]
        = .ok ⟨true, true, [(0, 0), (1, 0)], 1500, false⟩)
    ∧ ∀ n : Nat, ((overflow_step 0 0)^[n] [(0, 0)]).head? = some (0, 0)
        ∧ ((overflow_step 0 0)^[n] [(0, 0)]).length = n + 1 := by
  constructor
  · decide
  · intro n
    induction n with
    | zero => simp
    | succ k ih =>
      obtain ⟨ihh, ihl⟩ := ih
      rw [Function.iterate_succ_apply']
      rcases hl : (overflow_step 0 0)^[k] [(0, 0)] with _ | ⟨hd, t⟩
      · rw [hl] at ihh
        simp at ihh
      · rw [hl] at ihh ihl
        simp only [List.head?_cons, Option.some.injEq] at ihh
        subst ihh
        simp only [List.length_cons] at ihl
        rw [overflow_step_cons, if_pos rfl]
        refine ⟨by norm_num [midpoint_day], ?_⟩
        simp only [List.length_cons]
        omega

/-- C3 (code bug): a zero-count range is NOT removed from the queue —
`check_reset_needed` returns the queue unchanged with
`reset_needed = False` after quitting the driver, so `main` falls
through to `scrape_data` on the dead session and the exception escapes
(`raised_in_scrape`), with the empty range still in the queue. -/
theorem C3_zero_count_range_not_removed :
    (check_reset_needed (some "Showing 0 to 0 of 0 entries") 0 364 [(0, 364)]
        = .ok ⟨false, false, [(0, 364)], 0, true⟩)
    ∧ main (some "Showing 0 to 0 of 0 entries") deadSessionEnv 0 364 [(0, 364)]
        = .raised_in_scrape [(0, 364)] := by
  decide

/-- C5 counterexample: it is not true that an empty phase-1 result set
skips phase 2 — on a session whose listing pages are all empty,
`scrape_data` with `NUM_ENTRIES = 2` still makes 2 detail-extraction
attempts. -/
theorem C5_counterexample_detail_loop_still_runs :
    ¬ ∀ (env : ScrapeEnv) (n : Nat) (r : ScrapeResult),
        scrape_data env n = .ok r → r.all_data = [] → r.detail_attempts = 0 := by
  intro h
  have := h noRowsEnv 2
    { all_data := [], appraisal_data := [], detail_attempts := 2,
      navigated_to_first := false } (by decide) rfl
  simp at this

/-- C5 amended: when phase 1 captures no listing rows, only the
navigation to the first detail view is skipped; the phase-2 loop still
runs and makes at least one detail-extraction attempt whenever
`NUM_ENTRIES ≥ 1`. -/
theorem C5_amended_only_navigation_skipped (env : ScrapeEnv) (n : Nat)
    (r : ScrapeResult) (h : scrape_data env n = .ok r)
    (ha : r.all_data = []) (hn : 1 ≤ n) :
    r.navigated_to_first = false ∧ 1 ≤ r.detail_attempts := by
  rcases hpn : env.page_number with _ | pn
  · rw [scrape_data, hpn] at h
    cases h
  · rw [scrape_data, hpn] at h
    injection h with h
    subst h
    simp only at ha ⊢
    refine ⟨by simp [ha], ?_⟩
    rcases n with _ | m
    · omega
    · show 1 ≤ (scrape_details env (m + 1) 0).2
      rw [scrape_details]
      rcases env.details 0 with _ | t <;> simp

/-- Witness for C5 amended: the no-rows session with `NUM_ENTRIES = 2`
skips the first-detail navigation yet attempts extraction. -/
theorem C5_amended_only_navigation_skipped_witness :
    ScrapeResult.navigated_to_first
        { all_data := [], appraisal_data := [], detail_attempts := 2,
          navigated_to_first := false } = false
    ∧ 1 ≤ ScrapeResult.detail_attempts
        { all_data := [], appraisal_data := [], detail_attempts := 2,
          navigated_to_first := false } :=
  C5_amended_only_navigation_skipped noRowsEnv 2
    { all_data := [], appraisal_data := [], detail_attempts := 2,
      navigated_to_first := false } (by decide) rfl (by decide)

/-- C6 (code bug): when the scrape of an accepted range captures no
listing rows at all, `scrape_data` returns empty lists, but `main`'s
`assert all_data` (line 38 of `src/main.py`) raises before the
empty-frame return can happen (the `if not all_data` block at line 42 is
unreachable); the exception escapes `main` and the `__main__` loop, the
range stays in the queue, and the run aborts. -/
theorem C6_no_rows_assert_aborts_run :
    scrape_data noRowsEnv 40
        = .ok ⟨[], [], 40, false⟩
    ∧ main (some "Showing 1 to 25 of 40 entries") noRowsEnv 0 181
        [(0, 181), (182, 364)]
        = .raised_in_scrape [(0, 181), (182, 364)] := by
  decide

/-- C8 counterexample: the code does not take index 5 of the
WHITESPACE-split tokens.  `"0  1 2 3 4 5 6"` (a double space after the
first token) has 7 whitespace-split tokens, whose index-5 token parses
to 5, but the code's `split(" ")` keeps the empty token of the double
space and yields 4. -/
theorem C8_counterexample_space_split_differs :
    ((("0  1 2 3 4 5 6".toList.splitOnP Char.isWhitespace).filter
        (fun t => t ≠ [])).length = 7)
    ∧ parse_total_entries_whitespace "0  1 2 3 4 5 6" = some 5
    ∧ parse_total_entries "0  1 2 3 4 5 6" = some 4 := by
  decide

/-- C8 amended: the entry count used by `check_reset_needed` is the token
at index 5 of the text split on SINGLE SPACE characters (empty tokens
kept), commas stripped, converted to a number; a missing token or a
failed conversion makes `check_reset_needed` raise the range-fatal
`ValueError` instead of continuing with the range. -/
theorem C8_amended_single_space_token_parse (raw : String) (s e : Nat)
    (dates : List (Nat × Nat)) :
    (∀ tok c, (splitOneChar ' ' raw.toList).get? 5 = some tok →
        to_numeric (tok.filter (fun ch => ch ≠ ',')) = some c →
        (check_reset_needed (some raw) s e dates).toOption.map
            ResetResult.total_entries = some c)
    ∧ ((splitOneChar ' ' raw.toList).get? 5 = none →
        check_reset_needed (some raw) s e dates = .error ())
    ∧ (∀ tok, (splitOneChar ' ' raw.toList).get? 5 = some tok →
        to_numeric (tok.filter (fun ch => ch ≠ ',')) = none →
        check_reset_needed (some raw) s e dates = .error ()) := by
  refine ⟨?_, ?_, ?_⟩
  · intro tok c htok hc
    have hp : parse_total_entries raw = some c := by
      rw [parse_total_entries, htok]
      exact hc
    simp only [check_reset_needed, Option.some_bind, hp]
    by_cases h1 : 1000 ≤ c
    · simp [h1, Except.toOption]
    · by_cases h2 : c < 1 <;> simp [h1, h2, Except.toOption]
  · intro htok
    have hp : parse_total_entries raw = none := by
      rw [parse_total_entries, htok]
    simp [check_reset_needed, hp]
  · intro tok htok hc
    have hp : parse_total_entries raw = none := by
      rw [parse_total_entries, htok]
      exact hc
    simp [check_reset_needed, hp]

/-- C4 counterexample: the queue invariant (a partition into valid,
sorted, disjoint date intervals) is NOT preserved at every step: a
single-day range in overflow is replaced by itself plus the inverted
non-interval `(6, 5)`. -/
theorem C4_counterexample_degenerate_slice :
    chainLB 0 [(5, 5)] = true
    ∧ overflow_step 5 5 [(5, 5)] = [(5, 5), (6, 5)]
    ∧ chainLB 0 [(5, 5), (6, 5)] = false := by
  decide

/-- Bool equality from equivalence of being true. -/
theorem bool_eq_of_iff {p q : Bool} (h : p = true ↔ q = true) : p = q := by
  cases p <;> cases q <;> simp_all

/-- `covered` on a cons cell. -/
theorem covered_cons (r : Nat × Nat) (l : List (Nat × Nat)) (x : Nat) :
    covered (r :: l) x = ((decide (r.1 ≤ x) && decide (x ≤ r.2)) || covered l x) := rfl

/-- C4 amended: as long as every overflowing range has at least two days
(`start < end`), the splitting step preserves the queue invariant: if
the queue is a sorted list of valid pairwise-disjoint intervals
containing the processed range `(s, e)`, then after the split it still
is, and it covers exactly the same calendar days (none scraped twice,
none dropped). -/
theorem C4_amended_split_preserves_partition (s e : Nat) (hse : s < e) :
    ∀ (dates : List (Nat × Nat)) (lb : Nat), (s, e) ∈ dates →
      chainLB lb dates = true →
      chainLB lb (overflow_step s e dates) = true
      ∧ ∀ x, covered (overflow_step s e dates) x = covered dates x := by
  intro dates
  induction dates with
  | nil => intro lb h; cases h
  | cons hd t ih =>
    obtain ⟨a, b⟩ := hd
    intro lb hmem hinv
    simp only [chainLB, Bool.and_eq_true, decide_eq_true_eq] at hinv
    obtain ⟨⟨hlba, hab⟩, hct⟩ := hinv
    by_cases hbe : b = e
    · subst hbe
      have has : a = s := by
        rcases List.mem_cons.mp hmem with heq | hmt
        · injection heq with h1 h2
          exact h1.symm
        · have := chainLB_mem (b + 1) t s b hct hmt
          omega
      subst has
      rw [overflow_step_cons, if_pos rfl]
      have hm := midpoint_day_bounds a b hse
      constructor
      · simp only [chainLB, Bool.and_eq_true, decide_eq_true_eq]
        exact ⟨⟨hlba, hm.1⟩, ⟨Nat.le_refl _, by omega⟩, hct⟩
      · intro x
        apply bool_eq_of_iff
        simp only [covered_cons, Bool.or_eq_true, Bool.and_eq_true,
          decide_eq_true_eq]
        constructor
        · rintro (⟨h1, h2⟩ | ⟨h1, h2⟩ | hq)
          · exact Or.inl ⟨h1, by omega⟩
          · exact Or.inl ⟨by omega, h2⟩
          · exact Or.inr hq
        · rintro (⟨h1, h2⟩ | hq)
          · by_cases hxm : x ≤ midpoint_day a b
            · exact Or.inl ⟨h1, hxm⟩
            · exact Or.inr (Or.inl ⟨by omega, h2⟩)
          · exact Or.inr (Or.inr hq)
    · have hmt : (s, e) ∈ t := by
        rcases List.mem_cons.mp hmem with heq | h
        · injection heq with h1 h2
          exact absurd h2.symm hbe
        · exact h
      obtain ⟨ihc, ihcov⟩ := ih (b + 1) hmt hct
      rw [overflow_step_cons, if_neg hbe]
      constructor
      · simp only [chainLB, Bool.and_eq_true, decide_eq_true_eq]
        exact ⟨⟨hlba, hab⟩, ihc⟩
      · intro x
        rw [covered_cons, covered_cons, ihcov x]

/-- Witness for C4 amended: splitting the overflowing year range keeps
the queue a valid sorted disjoint partition. -/
theorem C4_amended_split_preserves_partition_witness :
    chainLB 0 (overflow_step 0 364 [(0, 364)]) = true :=
  ((C4_amended_split_preserves_partition 0 364 (by decide) [(0, 364)] 0
    (by simp) (by decide)).1)

end HamiltonScraper
